import Mathlib

/-!
Verification development for the two-service CEP→temperature pipeline
(`servicea/main.go`, `serviceb/main.go`).

Shallow embedding conventions:
* HTTP dependencies (ViaCEP, WeatherAPI, the downstream service) are
  environment oracles mapping the outgoing request's distinguishing data
  (cep path segment, escaped city query, marshalled body) to an outcome.
* `FetchOutcome` models `client.Do`: either a transport error or a response
  with a status and body; `ReadResult` models `io.ReadAll`; `DecodeResult`
  models a JSON decode step.  Request-construction failures
  (`http.NewRequestWithContext`) are subsumed under the transport error.
* Tracing is modelled as a writer log of `SpanEvent`s; Go's
  `defer span.End()` is rendered by `withSpan`, which brackets the
  operation's log — exactly the guarantee `defer` provides on all exits.
* Temperatures are exact rationals in the pipeline model; a separate IEEE-754
  binary64 rounding model (`f64Round`) is used where float behaviour matters.
* Response bodies are modelled structurally (`RespBody`); service A's verbatim
  byte pass-through is rendered as returning the downstream body value
  unchanged.
-/

attribute [local semireducible] Rat.mul Rat.inv Rat.add Rat.sub Rat.ofScientific

namespace OtelCep

/-! ### Outcome types for the HTTP dependencies -/

/-- Result of JSON-decoding a payload (`json.Unmarshal` / `Decoder.Decode`). -/
inductive DecodeResult (α : Type) where
  | malformed
  | ok (a : α)
  deriving DecidableEq

/-- Result of reading a response body (`io.ReadAll`). -/
inductive ReadResult (α : Type) where
  | readError
  | ok (a : α)
  deriving DecidableEq

/-- Result of an outbound HTTP call (`client.Do`): transport failure, or a
response carrying a status code and a body in state `α`. -/
inductive FetchOutcome (α : Type) where
  | transportError
  | response (status : Nat) (body : α)
  deriving DecidableEq

/-! ### Trace log model -/

/-- Observable tracing/IO events, in program order.  `startSpan`/`stopSpan`
model `tracer.Start` and `span.End`; `addEvent` models `span.AddEvent` with
the attached HTTP status attribute; `httpWrite` marks the response being
written; `outboundQuery` marks an outbound provider call with its request
data. -/
inductive SpanEvent where
  | startSpan (name : String)
  | stopSpan (name : String)
  | addEvent (name : String) (status : Nat)
  | httpWrite (status : Nat)
  | outboundQuery (target : String) (query : String)
  deriving DecidableEq

abbrev TraceLog := List SpanEvent

/-- `tracer.Start` followed by `defer span.End()`: every event of the body,
on every exit path, is bracketed by the start and stop of this span. -/
def withSpan (name : String) (body : α × TraceLog) : α × TraceLog :=
  (body.1, SpanEvent.startSpan name :: body.2 ++ [SpanEvent.stopSpan name])

/-- Sequencing: events of `log` happened before the remaining computation. -/
def logAfter (log : TraceLog) (body : α × TraceLog) : α × TraceLog :=
  (body.1, log ++ body.2)

/-- Number of `startSpan name` events in a log. -/
def countStart (name : String) (log : TraceLog) : Nat :=
  log.countP fun e => match e with
    | SpanEvent.startSpan n => n == name
    | _ => false

/-- Number of `stopSpan name` events in a log. -/
def countStop (name : String) (log : TraceLog) : Nat :=
  log.countP fun e => match e with
    | SpanEvent.stopSpan n => n == name
    | _ => false

/-- The five span names the two services open, one per logical operation. -/
def opSpanNames : List String :=
  ["handle_cep_request", "call_service_b",
   "handle_weather_request", "get_cep_info", "get_weather_info"]

/-- The log contains an `error_response` event carrying status `st`
immediately followed by the write of the response with that status. -/
def errorEventBeforeWrite (st : Nat) (log : TraceLog) : Prop :=
  ∃ l r, log = l ++ SpanEvent.addEvent "error_response" st
    :: SpanEvent.httpWrite st :: r

/-! ### Shared HTTP response shape -/

/-- `WeatherResult` from serviceb: the JSON success payload. -/
structure WeatherResult where
  city : String
  temp_C : ℚ
  temp_F : ℚ
  temp_K : ℚ
  deriving DecidableEq

/-- A response body: either the `ErrorResponse{Message}` JSON or the
`WeatherResult` JSON. -/
inductive RespBody where
  | errorMessage (message : String)
  | weatherReport (w : WeatherResult)
  deriving DecidableEq

structure HttpResponse where
  status : Nat
  body : RespBody
  deriving DecidableEq

/-! ### The validator: Go regexp `^\d{8}$`

Both services compile the same pattern.  An anchored run of `\d{8}` matches a
byte string iff it consists of exactly 8 ASCII-digit bytes; `matchEightDigits`
is the operational rendering (consume 8 digit characters, then require the
end of input). -/

/-- Anchored matcher for `\d{n}$`: exactly `n` ASCII digits remain. -/
def matchDigitsAnchored : Nat → List Char → Bool
  | 0, [] => true
  | 0, _ :: _ => false
  | _ + 1, [] => false
  | n + 1, c :: cs => c.isDigit && matchDigitsAnchored n cs

namespace ServiceA

/-- servicea `isValidCep`: `regexp.MustCompile("^\\d\x7b8\x7d$").MatchString cep`. -/
def isValidCep (cep : String) : Bool :=
  matchDigitsAnchored 8 cep.data

end ServiceA

namespace ServiceB

/-- serviceb `isValidCep`: same pattern as servicea. -/
def isValidCep (cep : String) : Bool :=
  matchDigitsAnchored 8 cep.data

end ServiceB

/-! ### Temperature conversion (serviceb), exact-arithmetic model -/

def celsiusToFahrenheit (celsius : ℚ) : ℚ := celsius * 1.8 + 32

def celsiusToKelvin (celsius : ℚ) : ℚ := celsius + 273

/-! ### Go `url.QueryEscape` (used by serviceb's `getWeatherInfo`)

Unreserved characters (ASCII alphanumerics and `-_.~`) pass through, a space
becomes `+`, and every other byte of the character's UTF-8 encoding becomes
`%XX` with uppercase hex digits. -/

def upperHexDigit (n : Nat) : Char :=
  if n < 10 then Char.ofNat (48 + n) else Char.ofNat (55 + n)

def lowerHexDigit (n : Nat) : Char :=
  if n < 10 then Char.ofNat (48 + n) else Char.ofNat (87 + n)

/-- UTF-8 encoding of a scalar value, as its list of bytes. -/
def utf8Bytes (c : Char) : List Nat :=
  let n := c.toNat
  if n < 0x80 then [n]
  else if n < 0x800 then [0xC0 + n / 0x40, 0x80 + n % 0x40]
  else if n < 0x10000 then
    [0xE0 + n / 0x1000, 0x80 + n / 0x40 % 0x40, 0x80 + n % 0x40]
  else
    [0xF0 + n / 0x40000, 0x80 + n / 0x1000 % 0x40, 0x80 + n / 0x40 % 0x40,
     0x80 + n % 0x40]

def percentEncodeByte (b : Nat) : List Char :=
  ['%', upperHexDigit (b / 16), upperHexDigit (b % 16)]

def isQueryUnreserved (c : Char) : Bool :=
  c.isAlpha || c.isDigit || c == '-' || c == '_' || c == '.' || c == '~'

def queryEscapeChar (c : Char) : List Char :=
  if isQueryUnreserved c then [c]
  else if c == ' ' then ['+']
  else ((utf8Bytes c).map percentEncodeByte).flatten

def queryEscape (s : String) : String :=
  String.mk ((s.data.map queryEscapeChar).flatten)

/-! ### Go `json.Marshal` of `map[string]string{"cep": cep}` (servicea)

`encoding/json` escapes `"`, `\`, control characters and (HTML-escaping,
on by default) `<`, `>`, `&`; everything else, digits included, passes
through.  The decoder side (`parseCepBody`) models serviceb's
`json.NewDecoder(r.Body).Decode(&CepRequest{...})` on bodies of this shape;
`\uXXXX` escapes are not produced for the characters our theorems exercise
and the model parser conservatively rejects them. -/

def lbraceChar : Char := Char.ofNat 123

def rbraceChar : Char := Char.ofNat 125

/-- Per-character escaping of Go's `encoding/json` string encoder (with its
default HTML escaping). -/
def jsonEscapeChar (c : Char) : List Char :=
  if c == '"' then ['\\', '"']
  else if c == '\\' then ['\\', '\\']
  else if c == '\n' then ['\\', 'n']
  else if c == '\r' then ['\\', 'r']
  else if c == '\t' then ['\\', 't']
  else if c.toNat < 0x20 then
    ['\\', 'u', '0', '0', lowerHexDigit (c.toNat / 16), lowerHexDigit (c.toNat % 16)]
  else if c == '<' then ['\\', 'u', '0', '0', '3', 'c']
  else if c == '>' then ['\\', 'u', '0', '0', '3', 'e']
  else if c == '&' then ['\\', 'u', '0', '0', '2', '6']
  else if c.toNat == 0x2028 then ['\\', 'u', '2', '0', '2', '8']
  else if c.toNat == 0x2029 then ['\\', 'u', '2', '0', '2', '9']
  else [c]

/-- The request body servicea sends: `json.Marshal(map[string]string
\x7b"cep": cep\x7d)`, i.e. the characters of `{"cep":"<escaped>"}`. -/
def marshalCep (cep : String) : List Char :=
  [lbraceChar, '"', 'c', 'e', 'p', '"', ':', '"']
    ++ (cep.data.map jsonEscapeChar).flatten ++ ['"', rbraceChar]

/-- Single-character JSON escapes understood by the model decoder. -/
def jsonUnescapeChar (e : Char) : Option Char :=
  if e == '"' then some '"'
  else if e == '\\' then some '\\'
  else if e == '/' then some '/'
  else if e == 'n' then some '\n'
  else if e == 'r' then some '\r'
  else if e == 't' then some '\t'
  else if e == 'b' then some (Char.ofNat 8)
  else if e == 'f' then some (Char.ofNat 12)
  else none

/-- Scan a JSON string body up to its closing quote, resolving escapes;
returns the decoded content and the input remaining after the quote. -/
def scanJsonString : List Char → Option (List Char × List Char)
  | [] => none
  | c :: rest =>
    if c == '"' then some ([], rest)
    else if c == '\\' then
      match rest with
      | [] => none
      | e :: rest2 =>
        match jsonUnescapeChar e with
        | none => none
        | some c2 =>
          match scanJsonString rest2 with
          | none => none
          | some (s, r) => some (c2 :: s, r)
    else
      match scanJsonString rest with
      | none => none
      | some (s, r) => some (c :: s, r)

/-- The eight leading characters of the marshalled body: `{"cep":"`. -/
def cepBodyOpening : List Char :=
  [lbraceChar, '"', 'c', 'e', 'p', '"', ':', '"']

/-- serviceb's decode of the request body into `CepRequest`, modelled on the
bodies servicea produces: `{"cep":"<string>"}` yields the decoded string,
anything else is malformed. -/
def parseCepBody (body : List Char) : DecodeResult String :=
  match body with
  | b0 :: b1 :: b2 :: b3 :: b4 :: b5 :: b6 :: b7 :: rest =>
    if [b0, b1, b2, b3, b4, b5, b6, b7] = cepBodyOpening then
      match scanJsonString rest with
      | some (content, r) =>
        if r = [rbraceChar] then DecodeResult.ok (String.mk content)
        else DecodeResult.malformed
      | none => DecodeResult.malformed
    else DecodeResult.malformed
  | _ => DecodeResult.malformed

/-! ### Service B (Downstream Orchestrator) -/

namespace ServiceB

/-- serviceb's error values: the sentinel `ErrCepNotFound` and every other
wrapped error, carrying its message. -/
inductive BErr where
  | cepNotFound
  | otherError (message : String)
  deriving DecidableEq

/-- ViaCEP response record; the Go struct's other string fields are never
read by the program and are omitted. -/
structure ViaCepResponse where
  localidade : String
  erro : Bool
  deriving DecidableEq

/-- WeatherAPI response; only `location.name` and `current.temp_c` are
decoded. -/
structure WeatherResponse where
  locationName : String
  tempC : ℚ
  deriving DecidableEq

/-- The ViaCEP dependency: from the cep in the request path to the call's
outcome (transport result, then read result, then decode result). -/
abbrev ViaCepEnv := String → FetchOutcome (ReadResult (DecodeResult ViaCepResponse))

/-- The WeatherAPI dependency: from the escaped city in the query string to
the call's outcome (`json.NewDecoder(resp.Body).Decode` merges reading and
decoding). -/
abbrev WeatherEnv := String → FetchOutcome (DecodeResult WeatherResponse)

/-- serviceb `getCepInfo`: span, GET to ViaCEP, then in order: transport
error, non-200 status, body read error, unmarshal error, the record's `erro`
flag (→ `ErrCepNotFound`), and finally the `localidade` field. -/
def getCepInfo (cep : String) (viaCepApi : ViaCepEnv) :
    Except BErr String × TraceLog :=
  withSpan "get_cep_info" (
    let log0 : TraceLog := [SpanEvent.outboundQuery "viacep" cep]
    match viaCepApi cep with
    | FetchOutcome.transportError =>
      (Except.error (BErr.otherError "error calling ViaCEP API"), log0)
    | FetchOutcome.response status body =>
      if status ≠ 200 then
        (Except.error (BErr.otherError "unexpected status code from ViaCEP"), log0)
      else
        match body with
        | ReadResult.readError =>
          (Except.error (BErr.otherError "error reading response body"), log0)
        | ReadResult.ok DecodeResult.malformed =>
          (Except.error (BErr.otherError "error unmarshaling ViaCEP response"), log0)
        | ReadResult.ok (DecodeResult.ok info) =>
          if info.erro then (Except.error BErr.cepNotFound, log0)
          else (Except.ok info.localidade, log0))

/-- serviceb `getWeatherInfo`: span, GET to WeatherAPI with the URL-escaped
city, then in order: transport error, non-200 status, decode error, success. -/
def getWeatherInfo (city : String) (weatherApi : WeatherEnv) :
    Except BErr WeatherResponse × TraceLog :=
  withSpan "get_weather_info" (
    let encodedCity := queryEscape city
    let log0 : TraceLog := [SpanEvent.outboundQuery "weatherapi" encodedCity]
    match weatherApi encodedCity with
    | FetchOutcome.transportError =>
      (Except.error (BErr.otherError "error calling Weather API"), log0)
    | FetchOutcome.response status body =>
      if status ≠ 200 then
        (Except.error (BErr.otherError "unexpected status code from Weather API"), log0)
      else
        match body with
        | DecodeResult.malformed =>
          (Except.error (BErr.otherError "error decoding Weather API response"), log0)
        | DecodeResult.ok weather => (Except.ok weather, log0))

/-- serviceb `respondWithError`: adds the `error_response` event with the
status attribute to the active span, then writes the error JSON. -/
def respondWithError (statusCode : Nat) (message : String) :
    HttpResponse × TraceLog :=
  (⟨statusCode, RespBody.errorMessage message⟩,
   [SpanEvent.addEvent "error_response" statusCode,
    SpanEvent.httpWrite statusCode])

/-- serviceb `handleWeatherRequest`: decode body, validate, resolve location,
fetch weather, convert, respond; terminal on the first failure. -/
def handleWeatherRequest (reqBody : DecodeResult String)
    (viaCepApi : ViaCepEnv) (weatherApi : WeatherEnv) :
    HttpResponse × TraceLog :=
  withSpan "handle_weather_request" (
    match reqBody with
    | DecodeResult.malformed => respondWithError 422 "invalid zipcode"
    | DecodeResult.ok cep =>
      if !isValidCep cep then respondWithError 422 "invalid zipcode"
      else
        match getCepInfo cep viaCepApi with
        | (Except.error BErr.cepNotFound, log1) =>
          logAfter log1 (respondWithError 404 "can not find zipcode")
        | (Except.error (BErr.otherError _), log1) =>
          logAfter log1 (respondWithError 500 "internal server error")
        | (Except.ok location, log1) =>
          match getWeatherInfo location weatherApi with
          | (Except.error _, log2) =>
            logAfter (log1 ++ log2) (respondWithError 500 "internal server error")
          | (Except.ok weather, log2) =>
            let tempC := weather.tempC
            (⟨200, RespBody.weatherReport
                ⟨location, tempC, celsiusToFahrenheit tempC, celsiusToKelvin tempC⟩⟩,
             log1 ++ log2 ++ [SpanEvent.httpWrite 200]))

/-- The log every `getCepInfo` call produces. -/
def gciLog (cep : String) : TraceLog :=
  [SpanEvent.startSpan "get_cep_info", SpanEvent.outboundQuery "viacep" cep,
   SpanEvent.stopSpan "get_cep_info"]

/-- The log every `getWeatherInfo` call produces. -/
def gwiLog (city : String) : TraceLog :=
  [SpanEvent.startSpan "get_weather_info",
   SpanEvent.outboundQuery "weatherapi" (queryEscape city),
   SpanEvent.stopSpan "get_weather_info"]

/-- Log of a Service B handler run that fails after inner operations with
log `inner`, responding `st`. -/
def hwErrLog (inner : TraceLog) (st : Nat) : TraceLog :=
  SpanEvent.startSpan "handle_weather_request"
    :: inner ++ [SpanEvent.addEvent "error_response" st, SpanEvent.httpWrite st,
                 SpanEvent.stopSpan "handle_weather_request"]

end ServiceB

/-! ### Service A (Entry Orchestrator) -/

namespace ServiceA

/-- servicea's error values: the sentinels `ErrCepNotFound` and
`ErrInvalidCep`, and every other wrapped error. -/
inductive AErr where
  | cepNotFound
  | invalidCep
  | otherError (message : String)
  deriving DecidableEq

/-- The downstream serviceb dependency: from the marshalled request body to
the call's outcome (service A reads the raw body and never decodes it). -/
abbrev DownstreamEnv := List Char → FetchOutcome (ReadResult RespBody)

/-- servicea `callServiceB`: span, marshal `{"cep": cep}`, POST it, read the
body, then map the status: 404 → `ErrCepNotFound`, 422 → `ErrInvalidCep`,
any other non-200 → error, 200 → the raw body. -/
def callServiceB (cep : String) (serviceB : DownstreamEnv) :
    Except AErr RespBody × TraceLog :=
  withSpan "call_service_b" (
    let reqBody := marshalCep cep
    let log0 : TraceLog := [SpanEvent.outboundQuery "serviceb" (String.mk reqBody)]
    match serviceB reqBody with
    | FetchOutcome.transportError =>
      (Except.error (AErr.otherError "error calling service B"), log0)
    | FetchOutcome.response status body =>
      match body with
      | ReadResult.readError =>
        (Except.error (AErr.otherError "error reading response body"), log0)
      | ReadResult.ok respBody =>
        if status == 404 then (Except.error AErr.cepNotFound, log0)
        else if status == 422 then (Except.error AErr.invalidCep, log0)
        else if status ≠ 200 then
          (Except.error (AErr.otherError "unexpected status code"), log0)
        else (Except.ok respBody, log0))

/-- servicea `respondWithError`: same shape as serviceb's. -/
def respondWithError (statusCode : Nat) (message : String) :
    HttpResponse × TraceLog :=
  (⟨statusCode, RespBody.errorMessage message⟩,
   [SpanEvent.addEvent "error_response" statusCode,
    SpanEvent.httpWrite statusCode])

/-- servicea `handleCepRequest`: decode body, validate, call serviceb, map
its errors, and on success write the downstream body through verbatim. -/
def handleCepRequest (reqBody : DecodeResult String) (serviceB : DownstreamEnv) :
    HttpResponse × TraceLog :=
  withSpan "handle_cep_request" (
    match reqBody with
    | DecodeResult.malformed => respondWithError 422 "invalid zipcode"
    | DecodeResult.ok cep =>
      if !isValidCep cep then respondWithError 422 "invalid zipcode"
      else
        match callServiceB cep serviceB with
        | (Except.error AErr.cepNotFound, log1) =>
          logAfter log1 (respondWithError 404 "can not find zipcode")
        | (Except.error AErr.invalidCep, log1) =>
          logAfter log1 (respondWithError 422 "invalid zipcode")
        | (Except.error (AErr.otherError _), log1) =>
          logAfter log1 (respondWithError 500 "internal server error")
        | (Except.ok body, log1) =>
          (⟨200, body⟩, log1 ++ [SpanEvent.httpWrite 200]))

/-- The log every `callServiceB` call produces. -/
def csbLog (cep : String) : TraceLog :=
  [SpanEvent.startSpan "call_service_b",
   SpanEvent.outboundQuery "serviceb" (String.mk (marshalCep cep)),
   SpanEvent.stopSpan "call_service_b"]

/-- Log of a Service A handler run that fails after inner operations with
log `inner`, responding `st`. -/
def hcErrLog (inner : TraceLog) (st : Nat) : TraceLog :=
  SpanEvent.startSpan "handle_cep_request"
    :: inner ++ [SpanEvent.addEvent "error_response" st, SpanEvent.httpWrite st,
                 SpanEvent.stopSpan "handle_cep_request"]

end ServiceA

/-! ### The composed two-service system -/

/-- Service B, seen from service A's HTTP client over a reliable transport:
the response status and body are the ones `handleWeatherRequest` writes for
the body service A sent. -/
def downstreamOfServiceB (viaCepApi : ServiceB.ViaCepEnv)
    (weatherApi : ServiceB.WeatherEnv) : ServiceA.DownstreamEnv :=
  fun sentBody =>
    let resp := (ServiceB.handleWeatherRequest (parseCepBody sentBody)
      viaCepApi weatherApi).1
    FetchOutcome.response resp.status (ReadResult.ok resp.body)

/-- The whole pipeline: service A handling a request, with service B as its
downstream. -/
def systemHandleCep (reqBody : DecodeResult String)
    (viaCepApi : ServiceB.ViaCepEnv) (weatherApi : ServiceB.WeatherEnv) :
    HttpResponse × TraceLog :=
  ServiceA.handleCepRequest reqBody (downstreamOfServiceB viaCepApi weatherApi)

/-! ### IEEE-754 binary64 rounding, over exact rationals

Go's `float64` arithmetic computes the exact rational result of each
operation and rounds it to 53 significant bits, ties to even.  The model
below covers normal, non-overflowing magnitudes (all values these theorems
touch lie well inside that range; subnormal and overflow handling is out of
scope and irrelevant here). -/

/-- Floor of a nonnegative rational, as a natural number. -/
def ratFloorPos (q : ℚ) : Nat := q.num.toNat / q.den

/-- Round a nonnegative rational to the nearest integer, ties to even. -/
def roundHalfEvenPos (q : ℚ) : Nat :=
  let fl := ratFloorPos q
  let frac := q - (fl : ℚ)
  if frac < 1 / 2 then fl
  else if 1 / 2 < frac then fl + 1
  else if fl % 2 = 0 then fl else fl + 1

/-- `⌊log₂ n⌋` for `n ≥ 1`, by fuelled structural recursion. -/
def log2Fuel : Nat → Nat → Nat
  | 0, _ => 0
  | fuel + 1, n => if 2 ≤ n then log2Fuel fuel (n / 2) + 1 else 0

/-- Smallest `k` (starting from `k0`, with `fuel` steps) with `1 ≤ q * 2 ^ k`. -/
def findNegExp (q : ℚ) : Nat → Nat → Nat
  | k0, 0 => k0
  | k0, fuel + 1 => if 1 ≤ q * 2 ^ k0 then k0 else findNegExp q (k0 + 1) fuel

/-- `⌊log₂ q⌋` for positive `q`. -/
def floorLog2Q (q : ℚ) : Int :=
  if 1 ≤ q then (log2Fuel 1200 (q.num.toNat / q.den) : Int)
  else -(findNegExp q 1 1200 : Int)

/-- An integer power of two, as a rational. -/
def pow2Z (k : Int) : ℚ :=
  if 0 ≤ k then ((2 ^ k.toNat : Nat) : ℚ) else 1 / ((2 ^ (-k).toNat : Nat) : ℚ)

/-- Round a positive rational to the nearest binary64 value (normal range). -/
def f64RoundPos (q : ℚ) : ℚ :=
  let e := floorLog2Q q
  let s := 52 - e
  let n := roundHalfEvenPos (q * pow2Z s)
  (n : ℚ) * pow2Z (-s)

/-- Round a rational to the nearest binary64 value (normal range). -/
def f64Round (q : ℚ) : ℚ :=
  if q = 0 then 0
  else if q < 0 then -f64RoundPos (-q) else f64RoundPos q

/-- serviceb `celsiusToFahrenheit` under Go's `float64` evaluation: the
literal `1.8` is the binary64 nearest 9/5, the product rounds once, and the
sum with the exact constant 32 rounds once. -/
def celsiusToFahrenheitF64 (celsius : ℚ) : ℚ :=
  f64Round (f64Round (celsius * f64Round (9 / 5)) + 32)

/-- serviceb `celsiusToKelvin` under Go's `float64` evaluation. -/
def celsiusToKelvinF64 (celsius : ℚ) : ℚ :=
  f64Round (celsius + 273)

/-! ### Predicates used to state claim C3 verbatim -/

namespace ServiceB

/-- The ViaCEP call's outcome carries a decodable record whose `erro`
("not-found") flag is set. -/
def viaCepFlagSet : FetchOutcome (ReadResult (DecodeResult ViaCepResponse)) → Prop
  | FetchOutcome.response _ (ReadResult.ok (DecodeResult.ok info)) => info.erro = true
  | _ => False

/-- The ViaCEP call failed in transport (either `client.Do` or the body
read). -/
def viaCepTransportFailure : FetchOutcome (ReadResult (DecodeResult ViaCepResponse)) → Prop
  | FetchOutcome.transportError => True
  | FetchOutcome.response _ ReadResult.readError => True
  | _ => False

/-- The ViaCEP call returned a status outside the 2xx range. -/
def viaCepNon2xx : FetchOutcome (ReadResult (DecodeResult ViaCepResponse)) → Prop
  | FetchOutcome.response status _ => status < 200 ∨ 300 ≤ status
  | _ => False

/-- The ViaCEP call returned a status other than 200. -/
def viaCepNon200 : FetchOutcome (ReadResult (DecodeResult ViaCepResponse)) → Prop
  | FetchOutcome.response status _ => status ≠ 200
  | _ => False

/-- The ViaCEP call returned a payload that does not decode. -/
def viaCepMalformedPayload : FetchOutcome (ReadResult (DecodeResult ViaCepResponse)) → Prop
  | FetchOutcome.response _ (ReadResult.ok DecodeResult.malformed) => True
  | _ => False

/-- The locality field of the ViaCEP record, when the outcome carries one. -/
def viaCepLocality : FetchOutcome (ReadResult (DecodeResult ViaCepResponse)) → Option String
  | FetchOutcome.response _ (ReadResult.ok (DecodeResult.ok info)) => some info.localidade
  | _ => none

/-- An Internal-kind failure of `getCepInfo` (anything but the `NotFound`
sentinel). -/
def isInternalErr : Except BErr String → Prop
  | Except.error (BErr.otherError _) => True
  | _ => False

/-- Claim C3 exactly as stated: `getCepInfo` fails with `NotFound` exactly
when the response record's `erro` flag is set; it fails with Internal on any
transport failure, any non-2xx status, or a malformed payload; and on
success it returns the record's locality field. -/
def claimC3Stated : Prop :=
  ∀ (cep : String) (viaCepApi : ViaCepEnv),
    ((getCepInfo cep viaCepApi).1 = Except.error BErr.cepNotFound ↔
      viaCepFlagSet (viaCepApi cep))
    ∧ (viaCepTransportFailure (viaCepApi cep) ∨ viaCepNon2xx (viaCepApi cep)
        ∨ viaCepMalformedPayload (viaCepApi cep) →
        isInternalErr (getCepInfo cep viaCepApi).1)
    ∧ (∀ loc, (getCepInfo cep viaCepApi).1 = Except.ok loc →
        viaCepLocality (viaCepApi cep) = some loc)

end ServiceB

/-- Helper: `matchDigitsAnchored n l` accepts exactly the length-`n` all-digit
strings. -/
theorem matchDigitsAnchored_iff (n : Nat) (l : List Char) :
    matchDigitsAnchored n l = true ↔ l.length = n ∧ ∀ c ∈ l, c.isDigit = true := by
  induction l generalizing n with
  | nil =>
    cases n <;> simp [matchDigitsAnchored]
  | cons c cs ih =>
    cases n with
    | zero => simp [matchDigitsAnchored]
    | succ m =>
      simp [matchDigitsAnchored, ih m, and_assoc, and_comm, and_left_comm]

/-- C5: For all strings `s`, `isValidCep s` (in either service) is true iff
`s` has length exactly 8 and every character of `s` is an ASCII digit.  The
function is a total Lean function with no error case. -/
theorem spec_c5 (s : String) :
    (ServiceA.isValidCep s = true ↔ s.length = 8 ∧ ∀ c ∈ s.data, c.isDigit = true)
    ∧ (ServiceB.isValidCep s = true ↔ s.length = 8 ∧ ∀ c ∈ s.data, c.isDigit = true) := by
  constructor
  · exact matchDigitsAnchored_iff 8 s.data
  · exact matchDigitsAnchored_iff 8 s.data

/-! ### Marshal/decode round trip on validated codes -/

/-- Helper: the code point of an ASCII digit lies in `[48, 57]`. -/
theorem digit_toNat_bounds {c : Char} (h : c.isDigit = true) :
    48 ≤ c.toNat ∧ c.toNat ≤ 57 := by
  simp [Char.isDigit, UInt32.le_def, BitVec.le_def] at h
  exact h

/-- Helper: a digit differs from any character outside the digit range. -/
theorem digit_beq_false {c d : Char} (h : c.isDigit = true)
    (hd : d.toNat < 48 ∨ 57 < d.toNat) : (c == d) = false := by
  have hb := digit_toNat_bounds h
  rw [beq_eq_false_iff_ne]
  intro hc; subst hc; omega

/-- Helper: the JSON encoder leaves ASCII digits untouched. -/
theorem jsonEscapeChar_of_digit {c : Char} (h : c.isDigit = true) :
    jsonEscapeChar c = [c] := by
  have hb := digit_toNat_bounds h
  have hne : ∀ d : Char, d.toNat < 48 ∨ 57 < d.toNat → ¬ c = d := by
    intro d hd hc; subst hc; omega
  simp only [jsonEscapeChar, beq_iff_eq]
  rw [if_neg (hne _ (by decide)), if_neg (hne _ (by decide)),
    if_neg (hne _ (by decide)), if_neg (hne _ (by decide)),
    if_neg (hne _ (by decide)), if_neg (by omega), if_neg (hne _ (by decide)),
    if_neg (hne _ (by decide)), if_neg (hne _ (by decide)),
    if_neg (by omega : ¬ c.toNat = 0x2028), if_neg (by omega : ¬ c.toNat = 0x2029)]

/-- Helper: JSON-escaping an all-digit string is the identity. -/
theorem jsonEscape_digits {l : List Char} (h : ∀ c ∈ l, c.isDigit = true) :
    (l.map jsonEscapeChar).flatten = l := by
  induction l with
  | nil => simp
  | cons c cs ih =>
    simp [jsonEscapeChar_of_digit (h c (by simp)),
      ih fun d hd => h d (by simp [hd])]

/-- Helper: scanning an all-digit content followed by the closing quote
returns the content and the rest. -/
theorem scanJsonString_digits {l r : List Char} (h : ∀ c ∈ l, c.isDigit = true) :
    scanJsonString (l ++ '"' :: r) = some (l, r) := by
  induction l with
  | nil =>
    rw [List.nil_append, scanJsonString.eq_def]
    simp
  | cons c cs ih =>
    have hq : (c == '"') = false := digit_beq_false (h c (by simp)) (by decide)
    have hbs : (c == '\\') = false := digit_beq_false (h c (by simp)) (by decide)
    rw [List.cons_append, scanJsonString.eq_def]
    simp [hq, hbs, ih fun d hd => h d (by simp [hd])]

/-- Helper: a code accepted by the validator consists of digits. -/
theorem isValidCep_digits {cep : String} (h : ServiceA.isValidCep cep = true) :
    ∀ c ∈ cep.data, c.isDigit = true :=
  ((matchDigitsAnchored_iff 8 cep.data).1 h).2

/-- Helper: decoding the marshalled body of a validated code gives back the
same code: servicea's re-marshalled `{"cep": code}` decodes downstream to
`code`. -/
theorem parseCepBody_marshalCep {cep : String} (h : ServiceA.isValidCep cep = true) :
    parseCepBody (marshalCep cep) = DecodeResult.ok cep := by
  have hd := isValidCep_digits h
  have hm : marshalCep cep
      = cepBodyOpening ++ (cep.data ++ '"' :: [rbraceChar]) := by
    simp [marshalCep, cepBodyOpening, jsonEscape_digits hd]
  rw [hm]
  simp only [cepBodyOpening, List.cons_append, List.nil_append]
  rw [parseCepBody]
  simp [cepBodyOpening, scanJsonString_digits hd]

/-! ### Case characterizations of the Service B operations -/

namespace ServiceB

theorem gci_transport {cep : String} {v : ViaCepEnv}
    (h : v cep = FetchOutcome.transportError) :
    getCepInfo cep v
      = (Except.error (BErr.otherError "error calling ViaCEP API"), gciLog cep) := by
  simp [getCepInfo, withSpan, h, gciLog]

theorem gci_status {cep : String} {v : ViaCepEnv} {s : Nat}
    {b : ReadResult (DecodeResult ViaCepResponse)}
    (h : v cep = FetchOutcome.response s b) (hs : s ≠ 200) :
    getCepInfo cep v
      = (Except.error (BErr.otherError "unexpected status code from ViaCEP"),
         gciLog cep) := by
  simp [getCepInfo, withSpan, h, hs, gciLog]

theorem gci_read {cep : String} {v : ViaCepEnv}
    (h : v cep = FetchOutcome.response 200 ReadResult.readError) :
    getCepInfo cep v
      = (Except.error (BErr.otherError "error reading response body"), gciLog cep) := by
  simp [getCepInfo, withSpan, h, gciLog]

theorem gci_malformed {cep : String} {v : ViaCepEnv}
    (h : v cep = FetchOutcome.response 200 (ReadResult.ok DecodeResult.malformed)) :
    getCepInfo cep v
      = (Except.error (BErr.otherError "error unmarshaling ViaCEP response"),
         gciLog cep) := by
  simp [getCepInfo, withSpan, h, gciLog]

theorem gci_erro {cep loc : String} {v : ViaCepEnv}
    (h : v cep = FetchOutcome.response 200 (ReadResult.ok (DecodeResult.ok ⟨loc, true⟩))) :
    getCepInfo cep v = (Except.error BErr.cepNotFound, gciLog cep) := by
  simp [getCepInfo, withSpan, h, gciLog]

theorem gci_ok {cep loc : String} {v : ViaCepEnv}
    (h : v cep = FetchOutcome.response 200 (ReadResult.ok (DecodeResult.ok ⟨loc, false⟩))) :
    getCepInfo cep v = (Except.ok loc, gciLog cep) := by
  simp [getCepInfo, withSpan, h, gciLog]

theorem gwi_transport {city : String} {w : WeatherEnv}
    (h : w (queryEscape city) = FetchOutcome.transportError) :
    getWeatherInfo city w
      = (Except.error (BErr.otherError "error calling Weather API"), gwiLog city) := by
  simp [getWeatherInfo, withSpan, h, gwiLog]

theorem gwi_status {city : String} {w : WeatherEnv} {s : Nat}
    {b : DecodeResult WeatherResponse}
    (h : w (queryEscape city) = FetchOutcome.response s b) (hs : s ≠ 200) :
    getWeatherInfo city w
      = (Except.error (BErr.otherError "unexpected status code from Weather API"),
         gwiLog city) := by
  simp [getWeatherInfo, withSpan, h, hs, gwiLog]

theorem gwi_malformed {city : String} {w : WeatherEnv}
    (h : w (queryEscape city) = FetchOutcome.response 200 DecodeResult.malformed) :
    getWeatherInfo city w
      = (Except.error (BErr.otherError "error decoding Weather API response"),
         gwiLog city) := by
  simp [getWeatherInfo, withSpan, h, gwiLog]

theorem gwi_ok {city : String} {w : WeatherEnv} {weather : WeatherResponse}
    (h : w (queryEscape city) = FetchOutcome.response 200 (DecodeResult.ok weather)) :
    getWeatherInfo city w = (Except.ok weather, gwiLog city) := by
  simp [getWeatherInfo, withSpan, h, gwiLog]

theorem hw_malformed (v : ViaCepEnv) (w : WeatherEnv) :
    handleWeatherRequest DecodeResult.malformed v w
      = (⟨422, RespBody.errorMessage "invalid zipcode"⟩, hwErrLog [] 422) := by
  simp [handleWeatherRequest, withSpan, respondWithError, hwErrLog]

theorem hw_invalid {cep : String} (v : ViaCepEnv) (w : WeatherEnv)
    (h : isValidCep cep = false) :
    handleWeatherRequest (DecodeResult.ok cep) v w
      = (⟨422, RespBody.errorMessage "invalid zipcode"⟩, hwErrLog [] 422) := by
  simp [handleWeatherRequest, withSpan, respondWithError, hwErrLog, h]

theorem hw_notFound {cep : String} {v : ViaCepEnv} (w : WeatherEnv) {log1 : TraceLog}
    (hval : isValidCep cep = true)
    (h : getCepInfo cep v = (Except.error BErr.cepNotFound, log1)) :
    handleWeatherRequest (DecodeResult.ok cep) v w
      = (⟨404, RespBody.errorMessage "can not find zipcode"⟩, hwErrLog log1 404) := by
  simp [handleWeatherRequest, withSpan, respondWithError, hwErrLog, hval, h, logAfter]

theorem hw_locErr {cep msg : String} {v : ViaCepEnv} (w : WeatherEnv) {log1 : TraceLog}
    (hval : isValidCep cep = true)
    (h : getCepInfo cep v = (Except.error (BErr.otherError msg), log1)) :
    handleWeatherRequest (DecodeResult.ok cep) v w
      = (⟨500, RespBody.errorMessage "internal server error"⟩, hwErrLog log1 500) := by
  simp [handleWeatherRequest, withSpan, respondWithError, hwErrLog, hval, h, logAfter]

theorem hw_weatherErr {cep location : String} {v : ViaCepEnv} {w : WeatherEnv}
    {log1 log2 : TraceLog} {err : BErr}
    (hval : isValidCep cep = true)
    (h1 : getCepInfo cep v = (Except.ok location, log1))
    (h2 : getWeatherInfo location w = (Except.error err, log2)) :
    handleWeatherRequest (DecodeResult.ok cep) v w
      = (⟨500, RespBody.errorMessage "internal server error"⟩,
         hwErrLog (log1 ++ log2) 500) := by
  simp [handleWeatherRequest, withSpan, respondWithError, hwErrLog, hval, h1, h2,
    logAfter]

theorem hw_success {cep location : String} {v : ViaCepEnv} {w : WeatherEnv}
    {log1 log2 : TraceLog} {weather : WeatherResponse}
    (hval : isValidCep cep = true)
    (h1 : getCepInfo cep v = (Except.ok location, log1))
    (h2 : getWeatherInfo location w = (Except.ok weather, log2)) :
    handleWeatherRequest (DecodeResult.ok cep) v w
      = (⟨200, RespBody.weatherReport
            ⟨location, weather.tempC, celsiusToFahrenheit weather.tempC,
             celsiusToKelvin weather.tempC⟩⟩,
         SpanEvent.startSpan "handle_weather_request"
           :: log1 ++ log2 ++ [SpanEvent.httpWrite 200,
              SpanEvent.stopSpan "handle_weather_request"]) := by
  simp [handleWeatherRequest, withSpan, hval, h1, h2]

end ServiceB

/-! ### Case characterizations of the Service A operations -/

namespace ServiceA

theorem csb_transport {cep : String} {d : DownstreamEnv}
    (h : d (marshalCep cep) = FetchOutcome.transportError) :
    callServiceB cep d
      = (Except.error (AErr.otherError "error calling service B"), csbLog cep) := by
  simp [callServiceB, withSpan, h, csbLog]

theorem csb_read {cep : String} {d : DownstreamEnv} {s : Nat}
    (h : d (marshalCep cep) = FetchOutcome.response s ReadResult.readError) :
    callServiceB cep d
      = (Except.error (AErr.otherError "error reading response body"), csbLog cep) := by
  simp [callServiceB, withSpan, h, csbLog]

theorem csb_404 {cep : String} {d : DownstreamEnv} {body : RespBody}
    (h : d (marshalCep cep) = FetchOutcome.response 404 (ReadResult.ok body)) :
    callServiceB cep d = (Except.error AErr.cepNotFound, csbLog cep) := by
  simp [callServiceB, withSpan, h, csbLog]

theorem csb_422 {cep : String} {d : DownstreamEnv} {body : RespBody}
    (h : d (marshalCep cep) = FetchOutcome.response 422 (ReadResult.ok body)) :
    callServiceB cep d = (Except.error AErr.invalidCep, csbLog cep) := by
  simp [callServiceB, withSpan, h, csbLog]

theorem csb_other {cep : String} {d : DownstreamEnv} {s : Nat} {body : RespBody}
    (h : d (marshalCep cep) = FetchOutcome.response s (ReadResult.ok body))
    (h4 : s ≠ 404) (h2 : s ≠ 422) (h0 : s ≠ 200) :
    callServiceB cep d
      = (Except.error (AErr.otherError "unexpected status code"), csbLog cep) := by
  simp [callServiceB, withSpan, h, h4, h2, h0, csbLog]

theorem csb_200 {cep : String} {d : DownstreamEnv} {body : RespBody}
    (h : d (marshalCep cep) = FetchOutcome.response 200 (ReadResult.ok body)) :
    callServiceB cep d = (Except.ok body, csbLog cep) := by
  simp [callServiceB, withSpan, h, csbLog]

theorem hc_malformed (d : DownstreamEnv) :
    handleCepRequest DecodeResult.malformed d
      = (⟨422, RespBody.errorMessage "invalid zipcode"⟩, hcErrLog [] 422) := by
  simp [handleCepRequest, withSpan, respondWithError, hcErrLog]

theorem hc_invalid {cep : String} (d : DownstreamEnv)
    (h : isValidCep cep = false) :
    handleCepRequest (DecodeResult.ok cep) d
      = (⟨422, RespBody.errorMessage "invalid zipcode"⟩, hcErrLog [] 422) := by
  simp [handleCepRequest, withSpan, respondWithError, hcErrLog, h]

theorem hc_notFound {cep : String} {d : DownstreamEnv} {log1 : TraceLog}
    (hval : isValidCep cep = true)
    (h : callServiceB cep d = (Except.error AErr.cepNotFound, log1)) :
    handleCepRequest (DecodeResult.ok cep) d
      = (⟨404, RespBody.errorMessage "can not find zipcode"⟩, hcErrLog log1 404) := by
  simp [handleCepRequest, withSpan, respondWithError, hcErrLog, hval, h, logAfter]

theorem hc_invalidDown {cep : String} {d : DownstreamEnv} {log1 : TraceLog}
    (hval : isValidCep cep = true)
    (h : callServiceB cep d = (Except.error AErr.invalidCep, log1)) :
    handleCepRequest (DecodeResult.ok cep) d
      = (⟨422, RespBody.errorMessage "invalid zipcode"⟩, hcErrLog log1 422) := by
  simp [handleCepRequest, withSpan, respondWithError, hcErrLog, hval, h, logAfter]

theorem hc_otherDown {cep msg : String} {d : DownstreamEnv} {log1 : TraceLog}
    (hval : isValidCep cep = true)
    (h : callServiceB cep d = (Except.error (AErr.otherError msg), log1)) :
    handleCepRequest (DecodeResult.ok cep) d
      = (⟨500, RespBody.errorMessage "internal server error"⟩, hcErrLog log1 500) := by
  simp [handleCepRequest, withSpan, respondWithError, hcErrLog, hval, h, logAfter]

theorem hc_success {cep : String} {d : DownstreamEnv} {log1 : TraceLog}
    {body : RespBody}
    (hval : isValidCep cep = true)
    (h : callServiceB cep d = (Except.ok body, log1)) :
    handleCepRequest (DecodeResult.ok cep) d
      = (⟨200, body⟩,
         SpanEvent.startSpan "handle_cep_request"
           :: log1 ++ [SpanEvent.httpWrite 200,
              SpanEvent.stopSpan "handle_cep_request"]) := by
  simp [handleCepRequest, withSpan, hval, h]

end ServiceA

/-! ### Claim theorems -/

/-- C1: For every response the Entry Orchestrator receives from the
downstream service, `callServiceB` maps the downstream HTTP status to a local
error kind exactly as: 404 yields `ErrCepNotFound` (responded as 404), 422
yields `ErrInvalidCep` (responded as 422), and every other non-200 status
yields an internal error (responded as 500 with message
"internal server error"). -/
theorem spec_c1 (cep : String) (serviceB : ServiceA.DownstreamEnv)
    (status : Nat) (body : RespBody)
    (hvalid : ServiceA.isValidCep cep = true)
    (hresp : serviceB (marshalCep cep) = FetchOutcome.response status (ReadResult.ok body)) :
    (status = 404 →
      (ServiceA.callServiceB cep serviceB).1 = Except.error ServiceA.AErr.cepNotFound
      ∧ (ServiceA.handleCepRequest (DecodeResult.ok cep) serviceB).1
          = ⟨404, RespBody.errorMessage "can not find zipcode"⟩)
    ∧ (status = 422 →
      (ServiceA.callServiceB cep serviceB).1 = Except.error ServiceA.AErr.invalidCep
      ∧ (ServiceA.handleCepRequest (DecodeResult.ok cep) serviceB).1
          = ⟨422, RespBody.errorMessage "invalid zipcode"⟩)
    ∧ (status ≠ 404 → status ≠ 422 → status ≠ 200 →
      (ServiceA.callServiceB cep serviceB).1
        = Except.error (ServiceA.AErr.otherError "unexpected status code")
      ∧ (ServiceA.handleCepRequest (DecodeResult.ok cep) serviceB).1
          = ⟨500, RespBody.errorMessage "internal server error"⟩) := by
  refine ⟨fun h404 => ?_, fun h422 => ?_, fun h4 h2 h0 => ?_⟩
  · subst h404
    exact ⟨by simp [ServiceA.csb_404 hresp],
      by simp [ServiceA.hc_notFound hvalid (ServiceA.csb_404 hresp)]⟩
  · subst h422
    exact ⟨by simp [ServiceA.csb_422 hresp],
      by simp [ServiceA.hc_invalidDown hvalid (ServiceA.csb_422 hresp)]⟩
  · exact ⟨by simp [ServiceA.csb_other hresp h4 h2 h0],
      by simp [ServiceA.hc_otherDown hvalid (ServiceA.csb_other hresp h4 h2 h0)]⟩

/-- Witness for C1 at a concrete 404 downstream response. -/
theorem spec_c1_witness :
    (ServiceA.callServiceB "01001000"
        (fun _ => FetchOutcome.response 404
          (ReadResult.ok (RespBody.errorMessage "can not find zipcode")))).1
      = Except.error ServiceA.AErr.cepNotFound
    ∧ (ServiceA.handleCepRequest (DecodeResult.ok "01001000")
        (fun _ => FetchOutcome.response 404
          (ReadResult.ok (RespBody.errorMessage "can not find zipcode")))).1
      = ⟨404, RespBody.errorMessage "can not find zipcode"⟩ :=
  (spec_c1 "01001000" _ 404 _ (by decide) rfl).1 rfl

/-- C2: The Downstream Orchestrator is a state machine terminal on first
failure: a body-decode failure yields 422 "invalid zipcode", a validation
failure yields 422 "invalid zipcode", a `NotFound` from location resolution
yields 404, any other location-resolution error yields 500, any
weather-fetch error yields 500 "internal server error", and only when all
steps succeed does it respond 200 with the converted report.  Each
right-hand side spells out the full output (response and trace log): after a
failure the output does not depend on the remaining environments and the log
contains no events of later steps. -/
theorem spec_c2 (viaCepApi : ServiceB.ViaCepEnv) (weatherApi : ServiceB.WeatherEnv) :
    ServiceB.handleWeatherRequest DecodeResult.malformed viaCepApi weatherApi
      = (⟨422, RespBody.errorMessage "invalid zipcode"⟩, ServiceB.hwErrLog [] 422)
    ∧ (∀ cep, ServiceB.isValidCep cep = false →
      ServiceB.handleWeatherRequest (DecodeResult.ok cep) viaCepApi weatherApi
        = (⟨422, RespBody.errorMessage "invalid zipcode"⟩, ServiceB.hwErrLog [] 422))
    ∧ (∀ cep log1, ServiceB.isValidCep cep = true →
      ServiceB.getCepInfo cep viaCepApi = (Except.error ServiceB.BErr.cepNotFound, log1) →
      ServiceB.handleWeatherRequest (DecodeResult.ok cep) viaCepApi weatherApi
        = (⟨404, RespBody.errorMessage "can not find zipcode"⟩,
           ServiceB.hwErrLog log1 404))
    ∧ (∀ cep msg log1, ServiceB.isValidCep cep = true →
      ServiceB.getCepInfo cep viaCepApi
        = (Except.error (ServiceB.BErr.otherError msg), log1) →
      ServiceB.handleWeatherRequest (DecodeResult.ok cep) viaCepApi weatherApi
        = (⟨500, RespBody.errorMessage "internal server error"⟩,
           ServiceB.hwErrLog log1 500))
    ∧ (∀ cep location err log1 log2, ServiceB.isValidCep cep = true →
      ServiceB.getCepInfo cep viaCepApi = (Except.ok location, log1) →
      ServiceB.getWeatherInfo location weatherApi = (Except.error err, log2) →
      ServiceB.handleWeatherRequest (DecodeResult.ok cep) viaCepApi weatherApi
        = (⟨500, RespBody.errorMessage "internal server error"⟩,
           ServiceB.hwErrLog (log1 ++ log2) 500))
    ∧ (∀ cep location weather log1 log2, ServiceB.isValidCep cep = true →
      ServiceB.getCepInfo cep viaCepApi = (Except.ok location, log1) →
      ServiceB.getWeatherInfo location weatherApi = (Except.ok weather, log2) →
      ServiceB.handleWeatherRequest (DecodeResult.ok cep) viaCepApi weatherApi
        = (⟨200, RespBody.weatherReport
              ⟨location, weather.tempC, celsiusToFahrenheit weather.tempC,
               celsiusToKelvin weather.tempC⟩⟩,
           SpanEvent.startSpan "handle_weather_request"
             :: log1 ++ log2 ++ [SpanEvent.httpWrite 200,
                SpanEvent.stopSpan "handle_weather_request"])) :=
  ⟨ServiceB.hw_malformed viaCepApi weatherApi,
   fun _ h => ServiceB.hw_invalid viaCepApi weatherApi h,
   fun _ _ hval h => ServiceB.hw_notFound weatherApi hval h,
   fun _ _ _ hval h => ServiceB.hw_locErr weatherApi hval h,
   fun _ _ _ _ _ hval h1 h2 => ServiceB.hw_weatherErr hval h1 h2,
   fun _ _ _ _ _ hval h1 h2 => ServiceB.hw_success hval h1 h2⟩

/-- Witness for C2 at a concrete run: the ViaCEP record's `erro` flag is set,
so the handler responds 404 and never consults the weather provider. -/
theorem spec_c2_witness :
    ServiceB.handleWeatherRequest (DecodeResult.ok "01001000")
      (fun _ => FetchOutcome.response 200 (ReadResult.ok (DecodeResult.ok ⟨"", true⟩)))
      (fun _ => FetchOutcome.transportError)
      = (⟨404, RespBody.errorMessage "can not find zipcode"⟩,
         [SpanEvent.startSpan "handle_weather_request",
          SpanEvent.startSpan "get_cep_info",
          SpanEvent.outboundQuery "viacep" "01001000",
          SpanEvent.stopSpan "get_cep_info",
          SpanEvent.addEvent "error_response" 404, SpanEvent.httpWrite 404,
          SpanEvent.stopSpan "handle_weather_request"]) := by
  have h := (spec_c2
    (fun _ => FetchOutcome.response 200 (ReadResult.ok (DecodeResult.ok ⟨"", true⟩)))
    (fun _ => FetchOutcome.transportError)).2.2.1 "01001000"
    [SpanEvent.startSpan "get_cep_info", SpanEvent.outboundQuery "viacep" "01001000",
     SpanEvent.stopSpan "get_cep_info"]
    (by decide) rfl
  exact h.trans (by decide)

/-- Helper: span discipline of the Service A handler — for each operation
span name, starts and stops agree, each span is opened at most once, and the
handler's own span is opened exactly once. -/
theorem handleCep_span_discipline (reqBody : DecodeResult String)
    (d : ServiceA.DownstreamEnv) (nm : String) (hnm : nm ∈ opSpanNames) :
    countStart nm (ServiceA.handleCepRequest reqBody d).2
      = countStop nm (ServiceA.handleCepRequest reqBody d).2
    ∧ countStart nm (ServiceA.handleCepRequest reqBody d).2 ≤ 1
    ∧ (nm = "handle_cep_request" →
        countStart nm (ServiceA.handleCepRequest reqBody d).2 = 1) := by
  rcases reqBody with _ | cep
  · rw [ServiceA.hc_malformed]
    fin_cases hnm <;>
      simp [countStart, countStop, ServiceA.hcErrLog, List.countP_cons, List.countP_append]
  · cases hval : ServiceA.isValidCep cep with
    | false =>
      rw [ServiceA.hc_invalid d hval]
      fin_cases hnm <;>
        simp [countStart, countStop, ServiceA.hcErrLog, List.countP_cons, List.countP_append]
    | true =>
      rcases hd : d (marshalCep cep) with _ | ⟨s, b⟩
      · rw [ServiceA.hc_otherDown hval (ServiceA.csb_transport hd)]
        fin_cases hnm <;>
          simp [countStart, countStop, ServiceA.hcErrLog, ServiceA.csbLog,
            List.countP_cons, List.countP_append]
      · rcases b with _ | body
        · rw [ServiceA.hc_otherDown hval (ServiceA.csb_read hd)]
          fin_cases hnm <;>
            simp [countStart, countStop, ServiceA.hcErrLog, ServiceA.csbLog,
              List.countP_cons, List.countP_append]
        · by_cases h4 : s = 404
          · subst h4
            rw [ServiceA.hc_notFound hval (ServiceA.csb_404 hd)]
            fin_cases hnm <;>
              simp [countStart, countStop, ServiceA.hcErrLog, ServiceA.csbLog,
                List.countP_cons, List.countP_append]
          · by_cases h2 : s = 422
            · subst h2
              rw [ServiceA.hc_invalidDown hval (ServiceA.csb_422 hd)]
              fin_cases hnm <;>
                simp [countStart, countStop, ServiceA.hcErrLog, ServiceA.csbLog,
                  List.countP_cons, List.countP_append]
            · by_cases h0 : s = 200
              · subst h0
                rw [ServiceA.hc_success hval (ServiceA.csb_200 hd)]
                fin_cases hnm <;>
                  simp [countStart, countStop, ServiceA.csbLog,
                    List.countP_cons, List.countP_append]
              · rw [ServiceA.hc_otherDown hval (ServiceA.csb_other hd h4 h2 h0)]
                fin_cases hnm <;>
                  simp [countStart, countStop, ServiceA.hcErrLog, ServiceA.csbLog,
                    List.countP_cons, List.countP_append]

/-- Helper: span discipline of the Service B handler — for each operation
span name, starts and stops agree, each span is opened at most once, and the
handler's own span is opened exactly once. -/
theorem handleWeather_span_discipline (reqBody : DecodeResult String)
    (v : ServiceB.ViaCepEnv) (w : ServiceB.WeatherEnv) (nm : String)
    (hnm : nm ∈ opSpanNames) :
    countStart nm (ServiceB.handleWeatherRequest reqBody v w).2
      = countStop nm (ServiceB.handleWeatherRequest reqBody v w).2
    ∧ countStart nm (ServiceB.handleWeatherRequest reqBody v w).2 ≤ 1
    ∧ (nm = "handle_weather_request" →
        countStart nm (ServiceB.handleWeatherRequest reqBody v w).2 = 1) := by
  rcases reqBody with _ | cep
  · rw [ServiceB.hw_malformed]
    fin_cases hnm <;>
      simp [countStart, countStop, ServiceB.hwErrLog, List.countP_cons, List.countP_append]
  · cases hval : ServiceB.isValidCep cep with
    | false =>
      rw [ServiceB.hw_invalid v w hval]
      fin_cases hnm <;>
        simp [countStart, countStop, ServiceB.hwErrLog, List.countP_cons, List.countP_append]
    | true =>
      rcases hv : v cep with _ | ⟨s, b⟩
      · rw [ServiceB.hw_locErr w hval (ServiceB.gci_transport hv)]
        fin_cases hnm <;>
          simp [countStart, countStop, ServiceB.hwErrLog, ServiceB.gciLog,
            List.countP_cons, List.countP_append]
      · by_cases h0 : s = 200
        · subst h0
          rcases b with _ | bb
          · rw [ServiceB.hw_locErr w hval (ServiceB.gci_read hv)]
            fin_cases hnm <;>
              simp [countStart, countStop, ServiceB.hwErrLog, ServiceB.gciLog,
                List.countP_cons, List.countP_append]
          · rcases bb with _ | ⟨loc, er⟩
            · rw [ServiceB.hw_locErr w hval (ServiceB.gci_malformed hv)]
              fin_cases hnm <;>
                simp [countStart, countStop, ServiceB.hwErrLog, ServiceB.gciLog,
                  List.countP_cons, List.countP_append]
            · cases er with
              | true =>
                rw [ServiceB.hw_notFound w hval (ServiceB.gci_erro hv)]
                fin_cases hnm <;>
                  simp [countStart, countStop, ServiceB.hwErrLog, ServiceB.gciLog,
                    List.countP_cons, List.countP_append]
              | false =>
                have hg := ServiceB.gci_ok hv
                rcases hw' : w (queryEscape loc) with _ | ⟨s2, b2⟩
                · rw [ServiceB.hw_weatherErr hval hg (ServiceB.gwi_transport hw')]
                  fin_cases hnm <;>
                    simp [countStart, countStop, ServiceB.hwErrLog, ServiceB.gciLog,
                      ServiceB.gwiLog, List.countP_cons, List.countP_append]
                · by_cases h02 : s2 = 200
                  · subst h02
                    rcases b2 with _ | weather
                    · rw [ServiceB.hw_weatherErr hval hg (ServiceB.gwi_malformed hw')]
                      fin_cases hnm <;>
                        simp [countStart, countStop, ServiceB.hwErrLog, ServiceB.gciLog,
                          ServiceB.gwiLog, List.countP_cons, List.countP_append]
                    · rw [ServiceB.hw_success hval hg (ServiceB.gwi_ok hw')]
                      fin_cases hnm <;>
                        simp [countStart, countStop, ServiceB.gciLog,
                          ServiceB.gwiLog, List.countP_cons, List.countP_append]
                  · rw [ServiceB.hw_weatherErr hval hg (ServiceB.gwi_status hw' h02)]
                    fin_cases hnm <;>
                      simp [countStart, countStop, ServiceB.hwErrLog, ServiceB.gciLog,
                        ServiceB.gwiLog, List.countP_cons, List.countP_append]
        · rw [ServiceB.hw_locErr w hval (ServiceB.gci_status hv h0)]
          fin_cases hnm <;>
            simp [countStart, countStop, ServiceB.hwErrLog, ServiceB.gciLog,
              List.countP_cons, List.countP_append]

/-- C7: Every logical operation that starts a span (request handling in
either orchestrator, the downstream call, and each outbound provider call)
ends that span exactly once on every exit path: in every run of either
handler, for each operation span name, the log has as many stop events as
start events, no operation span is opened more than once, and the handler's
own span is opened (and hence closed) exactly once. -/
theorem spec_c7 :
    (∀ (reqBody : DecodeResult String) (d : ServiceA.DownstreamEnv) (nm : String),
      nm ∈ opSpanNames →
      countStart nm (ServiceA.handleCepRequest reqBody d).2
        = countStop nm (ServiceA.handleCepRequest reqBody d).2
      ∧ countStart nm (ServiceA.handleCepRequest reqBody d).2 ≤ 1)
    ∧ (∀ (reqBody : DecodeResult String) (v : ServiceB.ViaCepEnv)
        (w : ServiceB.WeatherEnv) (nm : String),
      nm ∈ opSpanNames →
      countStart nm (ServiceB.handleWeatherRequest reqBody v w).2
        = countStop nm (ServiceB.handleWeatherRequest reqBody v w).2
      ∧ countStart nm (ServiceB.handleWeatherRequest reqBody v w).2 ≤ 1)
    ∧ (∀ (reqBody : DecodeResult String) (d : ServiceA.DownstreamEnv),
      countStart "handle_cep_request" (ServiceA.handleCepRequest reqBody d).2 = 1)
    ∧ (∀ (reqBody : DecodeResult String) (v : ServiceB.ViaCepEnv)
        (w : ServiceB.WeatherEnv),
      countStart "handle_weather_request"
        (ServiceB.handleWeatherRequest reqBody v w).2 = 1) := by
  refine ⟨fun rb d nm h => ⟨(handleCep_span_discipline rb d nm h).1,
      (handleCep_span_discipline rb d nm h).2.1⟩,
    fun rb v w nm h => ⟨(handleWeather_span_discipline rb v w nm h).1,
      (handleWeather_span_discipline rb v w nm h).2.1⟩,
    fun rb d => (handleCep_span_discipline rb d _ (by simp [opSpanNames])).2.2 rfl,
    fun rb v w => (handleWeather_span_discipline rb v w _ (by simp [opSpanNames])).2.2 rfl⟩

/-- Witness for C7 at a concrete run of each handler. -/
theorem spec_c7_witness :
    ("get_cep_info" ∈ opSpanNames
      ∧ countStart "get_cep_info"
          (ServiceB.handleWeatherRequest (DecodeResult.ok "01001000")
            (fun _ => FetchOutcome.transportError)
            (fun _ => FetchOutcome.transportError)).2
        = countStop "get_cep_info"
          (ServiceB.handleWeatherRequest (DecodeResult.ok "01001000")
            (fun _ => FetchOutcome.transportError)
            (fun _ => FetchOutcome.transportError)).2)
    ∧ ("call_service_b" ∈ opSpanNames
      ∧ countStart "call_service_b"
          (ServiceA.handleCepRequest (DecodeResult.ok "01001000")
            (fun _ => FetchOutcome.transportError)).2
        = countStop "call_service_b"
          (ServiceA.handleCepRequest (DecodeResult.ok "01001000")
            (fun _ => FetchOutcome.transportError)).2) :=
  ⟨⟨by decide,
    (spec_c7.2.1 (DecodeResult.ok "01001000") (fun _ => FetchOutcome.transportError)
      (fun _ => FetchOutcome.transportError) "get_cep_info" (by decide)).1⟩,
   ⟨by decide,
    (spec_c7.1 (DecodeResult.ok "01001000") (fun _ => FetchOutcome.transportError)
      "call_service_b" (by decide)).1⟩⟩

/-- Helper: a Service A error log has its `error_response` event right
before the write. -/
theorem eebw_hcErrLog (inner : TraceLog) (st : Nat) :
    errorEventBeforeWrite st (ServiceA.hcErrLog inner st) :=
  ⟨SpanEvent.startSpan "handle_cep_request" :: inner,
   [SpanEvent.stopSpan "handle_cep_request"], by simp [ServiceA.hcErrLog]⟩

/-- Helper: a Service B error log has its `error_response` event right
before the write. -/
theorem eebw_hwErrLog (inner : TraceLog) (st : Nat) :
    errorEventBeforeWrite st (ServiceB.hwErrLog inner st) :=
  ⟨SpanEvent.startSpan "handle_weather_request" :: inner,
   [SpanEvent.stopSpan "handle_weather_request"], by simp [ServiceB.hwErrLog]⟩

/-- C8: On every failure path of either orchestrator (any response whose
status is not 200), an event named "error_response" carrying the resulting
HTTP status code is attached to the active span immediately before the error
response is written. -/
theorem spec_c8 :
    (∀ (reqBody : DecodeResult String) (d : ServiceA.DownstreamEnv),
      (ServiceA.handleCepRequest reqBody d).1.status ≠ 200 →
      errorEventBeforeWrite (ServiceA.handleCepRequest reqBody d).1.status
        (ServiceA.handleCepRequest reqBody d).2)
    ∧ (∀ (reqBody : DecodeResult String) (v : ServiceB.ViaCepEnv)
        (w : ServiceB.WeatherEnv),
      (ServiceB.handleWeatherRequest reqBody v w).1.status ≠ 200 →
      errorEventBeforeWrite (ServiceB.handleWeatherRequest reqBody v w).1.status
        (ServiceB.handleWeatherRequest reqBody v w).2) := by
  constructor
  · intro reqBody d
    rcases reqBody with _ | cep
    · rw [ServiceA.hc_malformed]
      exact fun _ => eebw_hcErrLog [] 422
    · cases hval : ServiceA.isValidCep cep with
      | false =>
        rw [ServiceA.hc_invalid d hval]
        exact fun _ => eebw_hcErrLog [] 422
      | true =>
        rcases hd : d (marshalCep cep) with _ | ⟨s, b⟩
        · rw [ServiceA.hc_otherDown hval (ServiceA.csb_transport hd)]
          exact fun _ => eebw_hcErrLog _ 500
        · rcases b with _ | body
          · rw [ServiceA.hc_otherDown hval (ServiceA.csb_read hd)]
            exact fun _ => eebw_hcErrLog _ 500
          · by_cases h4 : s = 404
            · subst h4
              rw [ServiceA.hc_notFound hval (ServiceA.csb_404 hd)]
              exact fun _ => eebw_hcErrLog _ 404
            · by_cases h2 : s = 422
              · subst h2
                rw [ServiceA.hc_invalidDown hval (ServiceA.csb_422 hd)]
                exact fun _ => eebw_hcErrLog _ 422
              · by_cases h0 : s = 200
                · subst h0
                  rw [ServiceA.hc_success hval (ServiceA.csb_200 hd)]
                  exact fun h => absurd rfl h
                · rw [ServiceA.hc_otherDown hval (ServiceA.csb_other hd h4 h2 h0)]
                  exact fun _ => eebw_hcErrLog _ 500
  · intro reqBody v w
    rcases reqBody with _ | cep
    · rw [ServiceB.hw_malformed]
      exact fun _ => eebw_hwErrLog [] 422
    · cases hval : ServiceB.isValidCep cep with
      | false =>
        rw [ServiceB.hw_invalid v w hval]
        exact fun _ => eebw_hwErrLog [] 422
      | true =>
        rcases hv : v cep with _ | ⟨s, b⟩
        · rw [ServiceB.hw_locErr w hval (ServiceB.gci_transport hv)]
          exact fun _ => eebw_hwErrLog _ 500
        · by_cases h0 : s = 200
          · subst h0
            rcases b with _ | bb
            · rw [ServiceB.hw_locErr w hval (ServiceB.gci_read hv)]
              exact fun _ => eebw_hwErrLog _ 500
            · rcases bb with _ | ⟨loc, er⟩
              · rw [ServiceB.hw_locErr w hval (ServiceB.gci_malformed hv)]
                exact fun _ => eebw_hwErrLog _ 500
              · cases er with
                | true =>
                  rw [ServiceB.hw_notFound w hval (ServiceB.gci_erro hv)]
                  exact fun _ => eebw_hwErrLog _ 404
                | false =>
                  have hg := ServiceB.gci_ok hv
                  rcases hw' : w (queryEscape loc) with _ | ⟨s2, b2⟩
                  · rw [ServiceB.hw_weatherErr hval hg (ServiceB.gwi_transport hw')]
                    exact fun _ => eebw_hwErrLog _ 500
                  · by_cases h02 : s2 = 200
                    · subst h02
                      rcases b2 with _ | weather
                      · rw [ServiceB.hw_weatherErr hval hg (ServiceB.gwi_malformed hw')]
                        exact fun _ => eebw_hwErrLog _ 500
                      · rw [ServiceB.hw_success hval hg (ServiceB.gwi_ok hw')]
                        exact fun h => absurd rfl h
                    · rw [ServiceB.hw_weatherErr hval hg (ServiceB.gwi_status hw' h02)]
                      exact fun _ => eebw_hwErrLog _ 500
          · rw [ServiceB.hw_locErr w hval (ServiceB.gci_status hv h0)]
            exact fun _ => eebw_hwErrLog _ 500

/-- Witness for C8 at a concrete failing run of each orchestrator. -/
theorem spec_c8_witness :
    ((ServiceA.handleCepRequest DecodeResult.malformed
        (fun _ => FetchOutcome.transportError)).1.status ≠ 200
      ∧ errorEventBeforeWrite
          (ServiceA.handleCepRequest DecodeResult.malformed
            (fun _ => FetchOutcome.transportError)).1.status
          (ServiceA.handleCepRequest DecodeResult.malformed
            (fun _ => FetchOutcome.transportError)).2)
    ∧ ((ServiceB.handleWeatherRequest (DecodeResult.ok "123")
        (fun _ => FetchOutcome.transportError)
        (fun _ => FetchOutcome.transportError)).1.status ≠ 200
      ∧ errorEventBeforeWrite
          (ServiceB.handleWeatherRequest (DecodeResult.ok "123")
            (fun _ => FetchOutcome.transportError)
            (fun _ => FetchOutcome.transportError)).1.status
          (ServiceB.handleWeatherRequest (DecodeResult.ok "123")
            (fun _ => FetchOutcome.transportError)
            (fun _ => FetchOutcome.transportError)).2) :=
  ⟨⟨by decide, spec_c8.1 DecodeResult.malformed (fun _ => FetchOutcome.transportError)
      (by decide)⟩,
   ⟨by decide, spec_c8.2 (DecodeResult.ok "123") (fun _ => FetchOutcome.transportError)
      (fun _ => FetchOutcome.transportError) (by decide)⟩⟩

/-- C3 counterexample: the claim as stated is false on the code.  At a 2xx
status other than 200 (here 201) carrying a decodable record whose `erro`
flag is set, `getCepInfo` fails with an Internal-kind error, not with
`ErrCepNotFound`, although the claim's "NotFound exactly when the flag is
set" requires `NotFound` there (and its Internal clause, covering only
non-2xx statuses, does not apply). -/
theorem spec_c3_counterexample : ¬ ServiceB.claimC3Stated := by
  intro h
  have h1 := (h "01001000" (fun _ => FetchOutcome.response 201
    (ReadResult.ok (DecodeResult.ok ⟨"Sao Paulo", true⟩)))).1
  rw [ServiceB.gci_status rfl (by decide)] at h1
  simp [ServiceB.viaCepFlagSet] at h1

/-- C3 amended: `getCepInfo` fails with `ErrCepNotFound` exactly when the
provider responds with status 200 and a decodable record whose `erro` flag
is set; it fails with an Internal-kind error on any transport failure
(including a body-read failure), any status other than 200, or a malformed
payload; and on success it returns the record's `localidade` field. -/
theorem spec_c3_amended (cep : String) (viaCepApi : ServiceB.ViaCepEnv) :
    ((ServiceB.getCepInfo cep viaCepApi).1 = Except.error ServiceB.BErr.cepNotFound ↔
      (∃ loc, viaCepApi cep
        = FetchOutcome.response 200 (ReadResult.ok (DecodeResult.ok ⟨loc, true⟩))))
    ∧ (ServiceB.viaCepTransportFailure (viaCepApi cep)
        ∨ ServiceB.viaCepNon200 (viaCepApi cep)
        ∨ ServiceB.viaCepMalformedPayload (viaCepApi cep) →
        ServiceB.isInternalErr (ServiceB.getCepInfo cep viaCepApi).1)
    ∧ (∀ loc, (ServiceB.getCepInfo cep viaCepApi).1 = Except.ok loc →
        ServiceB.viaCepLocality (viaCepApi cep) = some loc) := by
  rcases hv : viaCepApi cep with _ | ⟨s, b⟩
  · rw [ServiceB.gci_transport hv]
    simp [hv, ServiceB.viaCepTransportFailure, ServiceB.isInternalErr,
      ServiceB.viaCepLocality]
  · by_cases h0 : s = 200
    · subst h0
      rcases b with _ | bb
      · rw [ServiceB.gci_read hv]
        simp [hv, ServiceB.viaCepTransportFailure, ServiceB.isInternalErr,
          ServiceB.viaCepLocality]
      · rcases bb with _ | ⟨loc, er⟩
        · rw [ServiceB.gci_malformed hv]
          simp [hv, ServiceB.viaCepMalformedPayload, ServiceB.isInternalErr,
            ServiceB.viaCepLocality]
        · cases er with
          | true =>
            rw [ServiceB.gci_erro hv]
            simp [hv, ServiceB.viaCepTransportFailure, ServiceB.viaCepNon200,
              ServiceB.viaCepMalformedPayload, ServiceB.viaCepLocality]
          | false =>
            rw [ServiceB.gci_ok hv]
            simp [hv, ServiceB.viaCepTransportFailure, ServiceB.viaCepNon200,
              ServiceB.viaCepMalformedPayload, ServiceB.viaCepLocality,
              ServiceB.isInternalErr]
    · rw [ServiceB.gci_status hv h0]
      simp [hv, ServiceB.viaCepNon200, ServiceB.isInternalErr,
        ServiceB.viaCepLocality, h0]

/-- Witness for C3 (amended) at a concrete flag-set 200 response. -/
theorem spec_c3_witness :
    (ServiceB.getCepInfo "01001000" (fun _ => FetchOutcome.response 200
      (ReadResult.ok (DecodeResult.ok ⟨"Sao Paulo", true⟩)))).1
      = Except.error ServiceB.BErr.cepNotFound :=
  (spec_c3_amended "01001000" _).1.mpr ⟨"Sao Paulo", rfl⟩

/-- C4: For every valid code, whenever the Downstream Orchestrator would
answer 200, the Entry Orchestrator's response through the composed pipeline
is status 200 with exactly the downstream body, passed through unchanged (no
re-serialization) — so the city and temperature values seen through the
Entry Orchestrator equal the ones the Downstream Orchestrator returns. -/
theorem spec_c4 (cep : String) (viaCepApi : ServiceB.ViaCepEnv)
    (weatherApi : ServiceB.WeatherEnv)
    (hvalid : ServiceA.isValidCep cep = true)
    (h200 : (ServiceB.handleWeatherRequest (DecodeResult.ok cep) viaCepApi
      weatherApi).1.status = 200) :
    (systemHandleCep (DecodeResult.ok cep) viaCepApi weatherApi).1
      = ⟨200, (ServiceB.handleWeatherRequest (DecodeResult.ok cep) viaCepApi
          weatherApi).1.body⟩ := by
  have hd : downstreamOfServiceB viaCepApi weatherApi (marshalCep cep)
      = FetchOutcome.response 200
          (ReadResult.ok (ServiceB.handleWeatherRequest (DecodeResult.ok cep)
            viaCepApi weatherApi).1.body) := by
    simp [downstreamOfServiceB, parseCepBody_marshalCep hvalid, h200]
  have hc := ServiceA.hc_success hvalid (ServiceA.csb_200 hd)
  simp [systemHandleCep, hc]

/-- Witness for C4 at a concrete resolvable code. -/
theorem spec_c4_witness :
    ServiceA.isValidCep "01001000" = true
    ∧ (ServiceB.handleWeatherRequest (DecodeResult.ok "01001000")
        (fun _ => FetchOutcome.response 200
          (ReadResult.ok (DecodeResult.ok ⟨"Sao Paulo", false⟩)))
        (fun _ => FetchOutcome.response 200
          (DecodeResult.ok ⟨"Sao Paulo", 25⟩))).1.status = 200
    ∧ (systemHandleCep (DecodeResult.ok "01001000")
        (fun _ => FetchOutcome.response 200
          (ReadResult.ok (DecodeResult.ok ⟨"Sao Paulo", false⟩)))
        (fun _ => FetchOutcome.response 200
          (DecodeResult.ok ⟨"Sao Paulo", 25⟩))).1
      = ⟨200, (ServiceB.handleWeatherRequest (DecodeResult.ok "01001000")
          (fun _ => FetchOutcome.response 200
            (ReadResult.ok (DecodeResult.ok ⟨"Sao Paulo", false⟩)))
          (fun _ => FetchOutcome.response 200
            (DecodeResult.ok ⟨"Sao Paulo", 25⟩))).1.body⟩ :=
  ⟨by decide, by decide, spec_c4 "01001000" _ _ (by decide) (by decide)⟩

/-- C6 counterexample: under the code's `float64` arithmetic, converting
`tempC = 28.5` does not yield `tempF = 83.3`: the product with the binary64
literal `1.8` rounds to a value one unit in the last place above the
binary64 value nearest 83.3 (Go prints it as 83.30000000000001). -/
theorem spec_c6_counterexample : celsiusToFahrenheitF64 28.5 ≠ 83.3 := by decide

/-- C6 amended: the conversion functions are pure and deterministic and
satisfy `tempF = tempC*1.8 + 32` and `tempK = tempC + 273` in exact
arithmetic, which at `tempC = 28.5` gives `tempF = 83.3` and
`tempK = 301.5`; under the code's `float64` evaluation `tempK(28.5)` is
still exactly 301.5, but `tempF(28.5)` is the binary64 value
1465429097499853/2^44 (printed 83.30000000000001), which differs from
83.3. -/
theorem spec_c6_amended :
    (∀ c : ℚ, celsiusToFahrenheit c = c * 1.8 + 32 ∧ celsiusToKelvin c = c + 273)
    ∧ celsiusToFahrenheit 28.5 = 83.3
    ∧ celsiusToKelvin 28.5 = 301.5
    ∧ celsiusToKelvinF64 28.5 = 301.5
    ∧ celsiusToFahrenheitF64 28.5 = 1465429097499853 / 17592186044416
    ∧ (1465429097499853 / 17592186044416 : ℚ) ≠ 83.3 :=
  ⟨fun _ => ⟨rfl, rfl⟩, by norm_num [celsiusToFahrenheit],
   by norm_num [celsiusToKelvin], by decide, by decide, by decide⟩

/-- Helper: with a valid code, the Downstream Orchestrator never answers
422 (its 422 responses come only from decode or validation failures). -/
theorem hw_status_ne_422 {cep : String} (v : ServiceB.ViaCepEnv)
    (w : ServiceB.WeatherEnv) (hval : ServiceB.isValidCep cep = true) :
    (ServiceB.handleWeatherRequest (DecodeResult.ok cep) v w).1.status ≠ 422 := by
  rcases hv : v cep with _ | ⟨s, b⟩
  · rw [ServiceB.hw_locErr w hval (ServiceB.gci_transport hv)]; simp
  · by_cases h0 : s = 200
    · subst h0
      rcases b with _ | bb
      · rw [ServiceB.hw_locErr w hval (ServiceB.gci_read hv)]; simp
      · rcases bb with _ | ⟨loc, er⟩
        · rw [ServiceB.hw_locErr w hval (ServiceB.gci_malformed hv)]; simp
        · cases er with
          | true => rw [ServiceB.hw_notFound w hval (ServiceB.gci_erro hv)]; simp
          | false =>
            have hg := ServiceB.gci_ok hv
            rcases hw' : w (queryEscape loc) with _ | ⟨s2, b2⟩
            · rw [ServiceB.hw_weatherErr hval hg (ServiceB.gwi_transport hw')]; simp
            · by_cases h02 : s2 = 200
              · subst h02
                rcases b2 with _ | weather
                · rw [ServiceB.hw_weatherErr hval hg (ServiceB.gwi_malformed hw')]
                  simp
                · rw [ServiceB.hw_success hval hg (ServiceB.gwi_ok hw')]; simp
              · rw [ServiceB.hw_weatherErr hval hg (ServiceB.gwi_status hw' h02)]
                simp
    · rw [ServiceB.hw_locErr w hval (ServiceB.gci_status hv h0)]; simp

/-- C9: The Entry and Downstream validators are extensionally equal; the
Entry Orchestrator's re-marshalled `{"cep": code}` decodes downstream to the
same string; and therefore, for every code passing Entry validation, the
Downstream Orchestrator never answers 422, so the Entry's `ErrInvalidCep`
branch is unreachable when service B behaves per its own contract. -/
theorem spec_c9 :
    (∀ s, ServiceA.isValidCep s = ServiceB.isValidCep s)
    ∧ (∀ cep, ServiceA.isValidCep cep = true →
        parseCepBody (marshalCep cep) = DecodeResult.ok cep)
    ∧ (∀ (cep : String) (v : ServiceB.ViaCepEnv) (w : ServiceB.WeatherEnv),
        ServiceA.isValidCep cep = true →
        (ServiceB.handleWeatherRequest (DecodeResult.ok cep) v w).1.status ≠ 422
        ∧ (ServiceA.callServiceB cep (downstreamOfServiceB v w)).1
            ≠ Except.error ServiceA.AErr.invalidCep) := by
  refine ⟨fun _ => rfl, fun _ h => parseCepBody_marshalCep h, fun cep v w hval => ?_⟩
  have hvalB : ServiceB.isValidCep cep = true := hval
  refine ⟨hw_status_ne_422 v w hvalB, ?_⟩
  intro hcontra
  have hd : downstreamOfServiceB v w (marshalCep cep)
      = FetchOutcome.response
          (ServiceB.handleWeatherRequest (DecodeResult.ok cep) v w).1.status
          (ReadResult.ok
            (ServiceB.handleWeatherRequest (DecodeResult.ok cep) v w).1.body) := by
    simp [downstreamOfServiceB, parseCepBody_marshalCep hval]
  by_cases h4 : (ServiceB.handleWeatherRequest (DecodeResult.ok cep) v w).1.status = 404
  · rw [ServiceA.csb_404 (h4 ▸ hd)] at hcontra
    simp at hcontra
  · by_cases h2 : (ServiceB.handleWeatherRequest (DecodeResult.ok cep) v w).1.status = 422
    · exact hw_status_ne_422 v w hvalB h2
    · by_cases h0 : (ServiceB.handleWeatherRequest (DecodeResult.ok cep) v w).1.status = 200
      · rw [ServiceA.csb_200 (h0 ▸ hd)] at hcontra
        simp at hcontra
      · rw [ServiceA.csb_other hd h4 h2 h0] at hcontra
        simp at hcontra

/-- Witness for C9 at a concrete valid code. -/
theorem spec_c9_witness :
    ServiceA.isValidCep "01001000" = ServiceB.isValidCep "01001000"
    ∧ parseCepBody (marshalCep "01001000") = DecodeResult.ok "01001000"
    ∧ (ServiceB.handleWeatherRequest (DecodeResult.ok "01001000")
        (fun _ => FetchOutcome.transportError)
        (fun _ => FetchOutcome.transportError)).1.status ≠ 422 :=
  ⟨spec_c9.1 "01001000", spec_c9.2.1 "01001000" (by decide),
   (spec_c9.2.2 "01001000" (fun _ => FetchOutcome.transportError)
     (fun _ => FetchOutcome.transportError) (by decide)).1⟩

/-- C10: When the postal-code provider responds 200 with a decodable record
whose `erro` flag is false, `getCepInfo` returns the `localidade` field
verbatim — including the empty string — and (for a validated code) the
handler proceeds to query the weather provider with that URL-escaped city
rather than failing: the log contains the outbound weather query for
`queryEscape loc`, and the response is never 404 or 422. -/
theorem spec_c10 (cep loc : String) (v : ServiceB.ViaCepEnv)
    (w : ServiceB.WeatherEnv)
    (hv : v cep = FetchOutcome.response 200
      (ReadResult.ok (DecodeResult.ok ⟨loc, false⟩))) :
    (ServiceB.getCepInfo cep v).1 = Except.ok loc
    ∧ (ServiceB.isValidCep cep = true →
        (∃ l r, (ServiceB.handleWeatherRequest (DecodeResult.ok cep) v w).2
          = l ++ SpanEvent.outboundQuery "weatherapi" (queryEscape loc) :: r)
        ∧ (ServiceB.handleWeatherRequest (DecodeResult.ok cep) v w).1.status ≠ 404
        ∧ (ServiceB.handleWeatherRequest (DecodeResult.ok cep) v w).1.status ≠ 422) := by
  have hg := ServiceB.gci_ok hv
  refine ⟨by simp [hg], fun hval => ?_⟩
  rcases hw' : w (queryEscape loc) with _ | ⟨s2, b2⟩
  · rw [ServiceB.hw_weatherErr hval hg (ServiceB.gwi_transport hw')]
    exact ⟨⟨SpanEvent.startSpan "handle_weather_request" :: ServiceB.gciLog cep
        ++ [SpanEvent.startSpan "get_weather_info"],
      [SpanEvent.stopSpan "get_weather_info", SpanEvent.addEvent "error_response" 500,
       SpanEvent.httpWrite 500, SpanEvent.stopSpan "handle_weather_request"],
      by simp [ServiceB.hwErrLog, ServiceB.gciLog, ServiceB.gwiLog]⟩,
      by simp, by simp⟩
  · by_cases h02 : s2 = 200
    · subst h02
      rcases b2 with _ | weather
      · rw [ServiceB.hw_weatherErr hval hg (ServiceB.gwi_malformed hw')]
        exact ⟨⟨SpanEvent.startSpan "handle_weather_request" :: ServiceB.gciLog cep
            ++ [SpanEvent.startSpan "get_weather_info"],
          [SpanEvent.stopSpan "get_weather_info", SpanEvent.addEvent "error_response" 500,
           SpanEvent.httpWrite 500, SpanEvent.stopSpan "handle_weather_request"],
          by simp [ServiceB.hwErrLog, ServiceB.gciLog, ServiceB.gwiLog]⟩,
          by simp, by simp⟩
      · rw [ServiceB.hw_success hval hg (ServiceB.gwi_ok hw')]
        exact ⟨⟨SpanEvent.startSpan "handle_weather_request" :: ServiceB.gciLog cep
            ++ [SpanEvent.startSpan "get_weather_info"],
          [SpanEvent.stopSpan "get_weather_info", SpanEvent.httpWrite 200,
           SpanEvent.stopSpan "handle_weather_request"],
          by simp [ServiceB.gciLog, ServiceB.gwiLog]⟩,
          by simp, by simp⟩
    · rw [ServiceB.hw_weatherErr hval hg (ServiceB.gwi_status hw' h02)]
      exact ⟨⟨SpanEvent.startSpan "handle_weather_request" :: ServiceB.gciLog cep
          ++ [SpanEvent.startSpan "get_weather_info"],
        [SpanEvent.stopSpan "get_weather_info", SpanEvent.addEvent "error_response" 500,
         SpanEvent.httpWrite 500, SpanEvent.stopSpan "handle_weather_request"],
        by simp [ServiceB.hwErrLog, ServiceB.gciLog, ServiceB.gwiLog]⟩,
        by simp, by simp⟩

/-- Witness for C10 with an empty `localidade`: the handler still proceeds
to the weather provider with the (empty) escaped city. -/
theorem spec_c10_witness :
    (ServiceB.getCepInfo "01001000" (fun _ => FetchOutcome.response 200
      (ReadResult.ok (DecodeResult.ok ⟨"", false⟩)))).1 = Except.ok ""
    ∧ (∃ l r, (ServiceB.handleWeatherRequest (DecodeResult.ok "01001000")
        (fun _ => FetchOutcome.response 200
          (ReadResult.ok (DecodeResult.ok ⟨"", false⟩)))
        (fun _ => FetchOutcome.transportError)).2
      = l ++ SpanEvent.outboundQuery "weatherapi" (queryEscape "") :: r) := by
  have h := spec_c10 "01001000" "" (fun _ => FetchOutcome.response 200
    (ReadResult.ok (DecodeResult.ok ⟨"", false⟩)))
    (fun _ => FetchOutcome.transportError) rfl
  exact ⟨h.1, (h.2 (by decide)).1⟩

end OtelCep
